import Mathlib

/-!
Verification development for the load-balancer backend and DRG route
distribution resource adapters, the generated JMS work-item enum and the
Fleet Application Management patch-type config details of the
terraform-provider-oci repository.

Go strings are modelled byte-for-byte as lists of byte values (`GoString`),
so that the URL path-escaping performed by `getBackendCompositeId` can be
stated exactly.  Pointer-valued struct fields of the SDK become `Option`s;
fallible calls return a value paired with an `Option GoError`.
-/

namespace OciProvider

/-- A Go string, seen as its byte sequence. -/
abbrev GoString := List Nat

/-- Byte sequence of a Lean string literal (ASCII throughout this file). -/
def gs (s : String) : GoString := s.toList.map Char.toNat

/-- A Go `error` value, by its message. -/
abbrev GoError := GoString

/-! ### net/url path-segment escaping

`getBackendCompositeId` calls `url.PathEscape`, and `parseBackendCompositeId`
calls `url.PathUnescape`; both belong to the Go standard library and are
embedded here byte-for-byte following `net/url`'s `shouldEscape`/`escape`/
`unescape` in the path-segment mode. -/

/-- RFC 3986 unreserved bytes: alphanumerics and `-`, `_`, `.`, `~`. -/
def isUnreservedByte (c : Nat) : Bool :=
  decide ((48 ≤ c ∧ c ≤ 57) ∨ (65 ≤ c ∧ c ≤ 90) ∨ (97 ≤ c ∧ c ≤ 122) ∨
    c = 45 ∨ c = 95 ∨ c = 46 ∨ c = 126)

/-- Reserved bytes that `net/url` keeps unescaped inside a path segment:
`$`, `&`, `+`, `:`, `=`, `@`. -/
def isSegmentKeptByte (c : Nat) : Bool :=
  decide (c = 36 ∨ c = 38 ∨ c = 43 ∨ c = 58 ∨ c = 61 ∨ c = 64)

/-- `net/url`'s `shouldEscape` in path-segment mode. -/
def shouldEscapeSegment (c : Nat) : Bool :=
  !(isUnreservedByte c || isSegmentKeptByte c)

/-- Upper-case hexadecimal digit byte for a nibble, as used by `net/url`
("0123456789ABCDEF"). -/
def upperHexDigit (k : Nat) : Nat := if k ≤ 9 then k + 48 else k + 55

/-- `url.PathEscape`: percent-encode every byte that `shouldEscape` flags. -/
def pathEscape : GoString → GoString
  | [] => []
  | c :: rest =>
    (if shouldEscapeSegment c then [37, upperHexDigit (c / 16), upperHexDigit (c % 16)]
     else [c]) ++ pathEscape rest

/-- Hexadecimal digit byte (either case), `net/url`'s `ishex`. -/
def isHexByte (c : Nat) : Bool :=
  decide ((48 ≤ c ∧ c ≤ 57) ∨ (65 ≤ c ∧ c ≤ 70) ∨ (97 ≤ c ∧ c ≤ 102))

/-- Value of a hexadecimal digit byte, `net/url`'s `unhex`. -/
def unhexByte (c : Nat) : Nat :=
  if c ≤ 57 then c - 48 else if c ≤ 70 then c - 55 else c - 87

/-- `url.PathUnescape`: decode `%XX` triples, failing on a malformed `%`. -/
def pathUnescape : GoString → Option GoString
  | [] => some []
  | c :: rest =>
    if c = 37 then
      match rest with
      | a :: b :: rest2 =>
        if isHexByte a && isHexByte b then
          (pathUnescape rest2).map (fun t => (unhexByte a * 16 + unhexByte b) :: t)
        else none
      | _ => none
    else (pathUnescape rest).map (fun t => c :: t)
termination_by l => l.length
decreasing_by all_goals simp <;> omega

/-! ### strings.Split on "/" and the composite-id regular expression -/

/-- `strings.Split(s, "/")` (byte 47 is `/`). -/
def splitOnSlash : GoString → List GoString
  | [] => [[]]
  | c :: rest =>
    if c = 47 then [] :: splitOnSlash rest
    else
      match splitOnSlash rest with
      | [] => [[c]]
      | t :: ts => (c :: t) :: ts

/-- One piece of the pattern `loadBalancers/.*/backendSets/.*/backends/.*`:
either a literal byte string or `.*` (any run of non-newline bytes). -/
inductive PatternPiece where
  | lit (l : GoString)
  | dotstar
deriving Repr

/-- Match a literal against the front of a string, returning the remainder. -/
def litMatch : GoString → GoString → Option GoString
  | [], s => some s
  | _ :: _, [] => none
  | c :: l, x :: s => if c = x then litMatch l s else none

/-- Whether the piece sequence matches starting exactly at the front of `s`
(a successful match may leave a suffix of `s` unconsumed, as a regexp
match does). `.*` never crosses a newline, as in Go's regexp package. -/
def matchFrom : List PatternPiece → GoString → Bool
  | [], _ => true
  | .lit l :: ps, s =>
    match litMatch l s with
    | some s2 => matchFrom ps s2
    | none => false
  | .dotstar :: ps, s =>
    (List.range (List.length s + 1)).any
      (fun k => (List.all (List.take k s) (fun c => c != 10)) && matchFrom ps (List.drop k s))

/-- The pieces of `"loadBalancers/.*/backendSets/.*/backends/.*"`. -/
def lbBackendPatternPieces : List PatternPiece :=
  [.lit (gs ("loadBalancers/")), .dotstar,
   .lit (gs ("/backendSets/")), .dotstar,
   .lit (gs ("/backends/")), .dotstar]

/-- `regexp.MatchString("loadBalancers/.*/backendSets/.*/backends/.*", s)`:
the pattern is unanchored, so it may match starting at any position. -/
def regexpMatchLBBackend (s : GoString) : Bool :=
  (List.range (List.length s + 1)).any
    (fun i => matchFrom lbBackendPatternPieces (List.drop i s))

/-- `getBackendCompositeId` from `load_balancer_backend_resource.go`. -/
def getBackendCompositeId (backendName backendSetName loadBalancerId : GoString) : GoString :=
  let backendName := pathEscape backendName
  let backendSetName := pathEscape backendSetName
  let loadBalancerId := pathEscape loadBalancerId
  gs ("loadBalancers/") ++ loadBalancerId ++ gs ("/backendSets/") ++ backendSetName ++
    gs ("/backends/") ++ backendName

/-- `parseBackendCompositeId` from `load_balancer_backend_resource.go`:
`none` models the `illegal compositeId` error return; on success the
result is `(backendName, backendSetName, loadBalancerId)`.  The source
discards `url.PathUnescape`'s error with `_`, so a failed unescape leaves
the empty string, modelled by `Option.getD _ []`. -/
def parseBackendCompositeId (compositeId : GoString) : Option (GoString × GoString × GoString) :=
  let parts := splitOnSlash compositeId
  if regexpMatchLBBackend compositeId = false ∨ parts.length ≠ 6 then none
  else
    some ((pathUnescape (parts.getD 5 [])).getD [],
          (pathUnescape (parts.getD 3 [])).getD [],
          (pathUnescape (parts.getD 1 [])).getD [])

/-! ### Load-balancer SDK types

The constants below are the `WorkRequestLifecycleState` enum of the vendored
`oci-go-sdk/loadbalancer` package that `load_balancer_backend_resource.go`
imports; pointer fields of the SDK structs become `Option`s. -/

def workRequestLifecycleStateAccepted : GoString := gs ("ACCEPTED")

def workRequestLifecycleStateInProgress : GoString := gs ("IN_PROGRESS")

def workRequestLifecycleStateFailed : GoString := gs ("FAILED")

def workRequestLifecycleStateSucceeded : GoString := gs ("SUCCEEDED")

/-- `oci_load_balancer.WorkRequest` (the fields the adapter reads). -/
structure WorkRequest where
  id : Option GoString := none
  lifecycleState : GoString := []
deriving DecidableEq, Repr

/-- `oci_load_balancer.Backend` (the fields `SetData` reads; all pointers). -/
structure LBBackend where
  name : Option GoString := none
  ipAddress : Option GoString := none
  port : Option Int := none
  backup : Option Bool := none
  drain : Option Bool := none
  offline : Option Bool := none
  weight : Option Int := none
deriving DecidableEq, Repr

/-- The backend resource's `schema.ResourceData`: one optional slot per
schema key (`GetOkExists` reports whether the slot is filled), plus the
resource ID. Value types follow the schema declared in `BackendResource`. -/
structure BackendResourceData where
  backendset_name : Option GoString := none
  backup : Option Bool := none
  drain : Option Bool := none
  ip_address : Option GoString := none
  load_balancer_id : Option GoString := none
  offline : Option Bool := none
  port : Option Int := none
  weight : Option Int := none
  name : Option GoString := none
  state : Option GoString := none
  id : GoString := []
deriving DecidableEq, Repr

/-- `oci_load_balancer.CreateBackendRequest` (retry metadata not modelled;
it only configures the HTTP layer). -/
structure CreateBackendRequest where
  backendSetName : Option GoString := none
  backup : Option Bool := none
  drain : Option Bool := none
  ipAddress : Option GoString := none
  loadBalancerId : Option GoString := none
  offline : Option Bool := none
  port : Option Int := none
  weight : Option Int := none
deriving DecidableEq, Repr

/-- `oci_load_balancer.DeleteBackendRequest`. -/
structure DeleteBackendRequest where
  backendName : Option GoString := none
  backendSetName : Option GoString := none
  loadBalancerId : Option GoString := none
deriving DecidableEq, Repr

/-- `oci_load_balancer.GetWorkRequestRequest`. -/
structure GetWorkRequestRequest where
  workRequestId : Option GoString := none
deriving DecidableEq, Repr

/-- Response of `CreateBackend`: carries the work-request id header. -/
structure CreateBackendResponse where
  opcWorkRequestId : Option GoString := none
deriving DecidableEq, Repr

/-- Response of `DeleteBackend`: carries the work-request id header. -/
structure DeleteBackendResponse where
  opcWorkRequestId : Option GoString := none
deriving DecidableEq, Repr

/-- Response of `GetWorkRequest`. -/
structure GetWorkRequestResponse where
  workRequest : WorkRequest := {}
deriving DecidableEq, Repr

/-- The load-balancer SDK client, as an oracle: each call returns its
response together with an optional error, exactly as the Go methods do.
`workRequestTrace` gives the lifecycle states an observer polling a given
work request would read, in order (the behaviour of the remote control
plane that `LoadBalancerWaitForWorkRequest` polls against). -/
structure LBClient where
  createBackend : CreateBackendRequest → CreateBackendResponse × Option GoError
  deleteBackend : DeleteBackendRequest → DeleteBackendResponse × Option GoError
  getWorkRequest : GetWorkRequestRequest → GetWorkRequestResponse × Option GoError
  workRequestTrace : WorkRequest → List GoString

/-! ### The BackendResourceCrud adapter -/

/-- `BackendResourceCrud.CreatedPending` (lines 153-158). -/
def backendCreatedPending : List GoString :=
  [workRequestLifecycleStateInProgress, workRequestLifecycleStateAccepted]

/-- `BackendResourceCrud.CreatedTarget` (lines 160-165). -/
def backendCreatedTarget : List GoString :=
  [workRequestLifecycleStateSucceeded, workRequestLifecycleStateFailed]

/-- `BackendResourceCrud.DeletedPending` (lines 167-172). -/
def backendDeletedPending : List GoString :=
  [workRequestLifecycleStateInProgress, workRequestLifecycleStateAccepted]

/-- `BackendResourceCrud.DeletedTarget` (lines 174-179). -/
def backendDeletedTarget : List GoString :=
  [workRequestLifecycleStateSucceeded, workRequestLifecycleStateFailed]

/-- `strconv.Itoa`. -/
def goItoa (n : Int) : GoString := gs (toString n)

/-- `BackendResourceCrud.buildID`: `ip_address + ":" + strconv.Itoa(port)`.
`schema.ResourceData.Get` yields the zero value for an unset key, hence
the `""`/`0` defaults. -/
def buildID (d : BackendResourceData) : GoString :=
  (d.ip_address.getD []) ++ gs (":") ++ goItoa (d.port.getD 0)

/-- In-flight state of a `BackendResourceCrud` value: its resource data,
the recorded work request and the fetched backend, mirroring the struct's
`D`, `WorkRequest` and `Res` fields. -/
structure BackendCrudState where
  d : BackendResourceData := {}
  workRequest : Option WorkRequest := none
  res : Option LBBackend := none
deriving DecidableEq, Repr

/-- `BackendResourceCrud.ID` (lines 141-151).  The Go code dereferences
`s.WorkRequest.Id`; the nil-pointer case (a panic in Go) is totalised
with the empty string. -/
def backendID (s : BackendCrudState) : GoString :=
  match s.workRequest with
  | some wr =>
    if wr.lifecycleState = workRequestLifecycleStateSucceeded then
      getBackendCompositeId (buildID s.d) (s.d.backendset_name.getD [])
        (s.d.load_balancer_id.getD [])
    else wr.id.getD []
  | none => []

/-- The request-building half of `BackendResourceCrud.Create` (lines
181-222): one conditional copy per schema key, in source order. -/
def buildCreateBackendRequest (d : BackendResourceData) : CreateBackendRequest :=
  let request : CreateBackendRequest := {}
  let request := match d.backendset_name with
    | some v => { request with backendSetName := some v }
    | none => request
  let request := match d.backup with
    | some v => { request with backup := some v }
    | none => request
  let request := match d.drain with
    | some v => { request with drain := some v }
    | none => request
  let request := match d.ip_address with
    | some v => { request with ipAddress := some v }
    | none => request
  let request := match d.load_balancer_id with
    | some v => { request with loadBalancerId := some v }
    | none => request
  let request := match d.offline with
    | some v => { request with offline := some v }
    | none => request
  let request := match d.port with
    | some v => { request with port := some v }
    | none => request
  let request := match d.weight with
    | some v => { request with weight := some v }
    | none => request
  request

/-- The request-building part of `BackendResourceCrud.Delete` (lines
358-373). -/
def buildDeleteBackendRequest (d : BackendResourceData) : DeleteBackendRequest :=
  let request : DeleteBackendRequest := {}
  let request := match d.name with
    | some v => { request with backendName := some v }
    | none => request
  let request := match d.backendset_name with
    | some v => { request with backendSetName := some v }
    | none => request
  let request := match d.load_balancer_id with
    | some v => { request with loadBalancerId := some v }
    | none => request
  request

/-- `strings.Contains(s, sub)`. -/
def goContains (s sub : GoString) : Bool :=
  match s with
  | [] => decide (sub = [])
  | _ :: rest => (litMatch sub s).isSome || goContains rest sub

/-- The work-request OCID marker that `Delete` tests the current ID for. -/
def lbWorkRequestOcidMarker : GoString := gs ("ocid1.loadbalancerworkrequest")

/-- Poll a work request along the trace of states the control plane shows:
stop with the state reached as soon as it lies in `target`; keep polling
while it lies in `pending`; `none` when no target state is ever reached
(the wait times out or sees an unexpected state). -/
def pollWorkRequest (pending target : List GoString) : List GoString → Option GoString
  | [] => none
  | st :: rest =>
    if st ∈ target then some st
    else if st ∈ pending then pollWorkRequest pending target rest
    else none

/-- Modelled from the spec: `LoadBalancerWaitForWorkRequest` (a helper of
this repository whose body is not among the given sources) is "a standard
long-poll loop": it polls the asynchronous work request until it reaches a
terminal lifecycle state, returning nil once a state in the target list is
reached and an error when the poll gives up without reaching one. -/
def loadBalancerWaitForWorkRequest (pending target : List GoString)
    (trace : List GoString) : Option GoError :=
  match pollWorkRequest pending target trace with
  | some _ => none
  | none => some (gs ("timed out waiting for work request"))

/-- `BackendResourceCrud.Create` (lines 181-245): build the request, call
`CreateBackend`, fetch the work request named by the response header, then
wait for it.  Returns the error result together with the recorded
`s.WorkRequest`. -/
def backendCreate (c : LBClient) (d : BackendResourceData) :
    Option GoError × Option WorkRequest :=
  let request := buildCreateBackendRequest d
  let (response, err) := c.createBackend request
  match err with
  | some e => (some e, none)
  | none =>
    let workReqID := response.opcWorkRequestId
    let getWorkRequestRequest : GetWorkRequestRequest := { workRequestId := workReqID }
    let (workRequestResponse, err) := c.getWorkRequest getWorkRequestRequest
    match err with
    | some e => (some e, none)
    | none =>
      let wr := workRequestResponse.workRequest
      match loadBalancerWaitForWorkRequest backendCreatedPending backendCreatedTarget
          (c.workRequestTrace wr) with
      | some e => (some e, some wr)
      | none => (none, some wr)

/-- `BackendResourceCrud.Delete` (lines 354-394): early return when the
current ID contains the work-request OCID marker; otherwise call
`DeleteBackend` — whose error the source never checks: `err` is
reassigned by the `GetWorkRequest` call on line 383 — then fetch the work
request, `SetId` to its id, and wait.  Returns the error result, the
recorded `s.WorkRequest` and the (possibly re-identified) resource
data. -/
def backendDelete (c : LBClient) (d : BackendResourceData) :
    Option GoError × Option WorkRequest × BackendResourceData :=
  if goContains d.id lbWorkRequestOcidMarker then (none, none, d)
  else
    let request := buildDeleteBackendRequest d
    let (response, _err) := c.deleteBackend request
    let workReqID := response.opcWorkRequestId
    let getWorkRequestRequest : GetWorkRequestRequest := { workRequestId := workReqID }
    let (workRequestResponse, err) := c.getWorkRequest getWorkRequestRequest
    match err with
    | some e => (some e, none, d)
    | none =>
      let wr := workRequestResponse.workRequest
      let d := { d with id := workReqID.getD [] }
      match loadBalancerWaitForWorkRequest backendDeletedPending backendDeletedTarget
          (c.workRequestTrace wr) with
      | some e => (some e, some wr, d)
      | none => (none, some wr, d)

/-- `BackendResourceCrud.SetData` (lines 396-439): nothing when `Res` is
nil; otherwise re-derive `name`/`backendset_name`/`load_balancer_id` from
the composite ID when it parses, then copy every non-nil response field
into the resource data, in source order. -/
def backendSetData (s : BackendCrudState) : BackendResourceData :=
  match s.res with
  | none => s.d
  | some r =>
    let d := s.d
    let d := match parseBackendCompositeId d.id with
      | some (backendName, backendSetName, loadBalancerId) =>
        { d with name := some backendName, backendset_name := some backendSetName,
                 load_balancer_id := some loadBalancerId }
      | none => d
    let d := match r.backup with
      | some v => { d with backup := some v }
      | none => d
    let d := match r.drain with
      | some v => { d with drain := some v }
      | none => d
    let d := match r.ipAddress with
      | some v => { d with ip_address := some v }
      | none => d
    let d := match r.name with
      | some v => { d with name := some v }
      | none => d
    let d := match r.offline with
      | some v => { d with offline := some v }
      | none => d
    let d := match r.port with
      | some v => { d with port := some v }
      | none => d
    let d := match r.weight with
      | some v => { d with weight := some v }
      | none => d
    d

/-! ### Named backend-set mutexes -/

/-- The pool of named mutexes held by `lbBackendSetMutexes`: mutexes are
identified by the order of their creation, keyed by the
(loadBalancerId, backendSetName) pair. -/
structure BackendSetMutexStore where
  entries : List ((GoString × GoString) × Nat) := []
  next : Nat := 0
deriving DecidableEq, Repr

/-- Modelled from the spec: `lbBackendSetMutexes.GetOrCreateBackendSetMutex`
(a helper of this repository whose body is not among the given sources)
keeps "a handful of named mutexes guarding a couple of known multi-writer
resource types": it returns the mutex already recorded for the
(loadBalancerId, backendSetName) pair, creating and recording a fresh one
on first use. -/
def getOrCreateBackendSetMutex (st : BackendSetMutexStore) (loadBalancerId backendSetName : GoString) :
    Nat × BackendSetMutexStore :=
  match st.entries.find? (fun e => e.1 = (loadBalancerId, backendSetName)) with
  | some e => (e.2, st)
  | none =>
    (st.next, { entries := ((loadBalancerId, backendSetName), st.next) :: st.entries,
                next := st.next + 1 })

/-- `BackendResourceCrud.GetMutex` (lines 133-135): look the mutex up under
the `load_balancer_id` and `backendset_name` of the resource data
(`Get` yields the zero value `""` for an unset key). -/
def backendGetMutex (st : BackendSetMutexStore) (d : BackendResourceData) :
    Nat × BackendSetMutexStore :=
  getOrCreateBackendSetMutex st (d.load_balancer_id.getD []) (d.backendset_name.getD [])

/-! ### DRG route distribution resource registration

`core_drg_route_distribution_resource.go` registers the resource into the
global table at package init.  Go functions referenced by the
`schema.Resource` entries are identified by name. -/

/-- The per-resource CRUD adapter functions of
`core_drg_route_distribution_resource.go`, as referents. -/
inductive CrudHandler where
  | createCoreDrgRouteDistribution
  | readCoreDrgRouteDistribution
  | updateCoreDrgRouteDistribution
  | deleteCoreDrgRouteDistribution
deriving DecidableEq, Repr

/-- Terraform value types occurring in the DRG route distribution schema. -/
inductive SchemaValueType where
  | typeString
  | typeMap
deriving DecidableEq, Repr

/-- One entry of a `schema.Resource`'s schema map. -/
structure SchemaField where
  name : String
  type : SchemaValueType
  required : Bool := false
  optional : Bool := false
  computed : Bool := false
  forceNew : Bool := false
deriving DecidableEq, Repr

/-- A `schema.Resource` with passthrough importer and default timeouts (the
only shape used here): its four CRUD entries and its schema map. -/
structure SchemaResource where
  create : CrudHandler
  read : CrudHandler
  update : CrudHandler
  delete : CrudHandler
  schemaFields : List SchemaField
deriving DecidableEq, Repr

/-- `CoreDrgRouteDistributionResource` (lines 18-76). -/
def CoreDrgRouteDistributionResource : SchemaResource :=
  { create := .createCoreDrgRouteDistribution,
    read := .readCoreDrgRouteDistribution,
    update := .updateCoreDrgRouteDistribution,
    delete := .deleteCoreDrgRouteDistribution,
    schemaFields :=
      [{ name := "distribution_type", type := .typeString, required := true, forceNew := true },
       { name := "drg_id", type := .typeString, required := true, forceNew := true },
       { name := "defined_tags", type := .typeMap, optional := true, computed := true },
       { name := "display_name", type := .typeString, optional := true, computed := true },
       { name := "freeform_tags", type := .typeMap, optional := true, computed := true },
       { name := "compartment_id", type := .typeString, computed := true },
       { name := "state", type := .typeString, computed := true },
       { name := "time_created", type := .typeString, computed := true }] }

/-- Modelled from the spec: `RegisterResource` (a helper of this repository
whose body is not among the given sources) adds a named resource to the
global resource/datasource table that the per-resource adapters "register
themselves into". -/
def RegisterResource (name : String) (r : SchemaResource)
    (table : List (String × SchemaResource)) : List (String × SchemaResource) :=
  (name, r) :: table

/-- The `init` function of `core_drg_route_distribution_resource.go`
(lines 14-16), as the registration it performs on the global table. -/
def coreDrgRouteDistributionInit (table : List (String × SchemaResource)) :
    List (String × SchemaResource) :=
  RegisterResource "oci_core_drg_route_distribution" CoreDrgRouteDistributionResource table

/-! ### JMS WorkItemTypeEnum (src/unnamed/part_002) -/

def workItemTypeLcm : GoString := gs ("LCM")

def workItemTypeJfrCapture : GoString := gs ("JFR_CAPTURE")

def workItemTypeJfrUpload : GoString := gs ("JFR_UPLOAD")

def workItemTypeCryptoAnalysis : GoString := gs ("CRYPTO_ANALYSIS")

def workItemTypeCryptoAnalysisMerge : GoString := gs ("CRYPTO_ANALYSIS_MERGE")

def workItemTypeAdvancedUsageTracking : GoString := gs ("ADVANCED_USAGE_TRACKING")

def workItemTypePerformanceTuning : GoString := gs ("PERFORMANCE_TUNING")

def workItemTypeJmigrateAnalysis : GoString := gs ("JMIGRATE_ANALYSIS")

/-- The eight declared `WorkItemTypeEnum` constants, in declaration order. -/
def workItemTypeEnumConstants : List GoString :=
  [workItemTypeLcm, workItemTypeJfrCapture, workItemTypeJfrUpload,
   workItemTypeCryptoAnalysis, workItemTypeCryptoAnalysisMerge,
   workItemTypeAdvancedUsageTracking, workItemTypePerformanceTuning,
   workItemTypeJmigrateAnalysis]

/-- Exact-key lookup in a Go map literal, written as an association list
(the keys of both literals below are pairwise distinct, so first-match
equals map lookup). -/
def lookupGo : List (GoString × GoString) → GoString → Option GoString
  | [], _ => none
  | (k, v) :: rest, key => if key = k then some v else lookupGo rest key

/-- `mappingWorkItemTypeEnum`. -/
def mappingWorkItemTypeEnum : List (GoString × GoString) :=
  [(gs ("LCM"), workItemTypeLcm),
   (gs ("JFR_CAPTURE"), workItemTypeJfrCapture),
   (gs ("JFR_UPLOAD"), workItemTypeJfrUpload),
   (gs ("CRYPTO_ANALYSIS"), workItemTypeCryptoAnalysis),
   (gs ("CRYPTO_ANALYSIS_MERGE"), workItemTypeCryptoAnalysisMerge),
   (gs ("ADVANCED_USAGE_TRACKING"), workItemTypeAdvancedUsageTracking),
   (gs ("PERFORMANCE_TUNING"), workItemTypePerformanceTuning),
   (gs ("JMIGRATE_ANALYSIS"), workItemTypeJmigrateAnalysis)]

/-- `mappingWorkItemTypeEnumLowerCase`. -/
def mappingWorkItemTypeEnumLowerCase : List (GoString × GoString) :=
  [(gs ("lcm"), workItemTypeLcm),
   (gs ("jfr_capture"), workItemTypeJfrCapture),
   (gs ("jfr_upload"), workItemTypeJfrUpload),
   (gs ("crypto_analysis"), workItemTypeCryptoAnalysis),
   (gs ("crypto_analysis_merge"), workItemTypeCryptoAnalysisMerge),
   (gs ("advanced_usage_tracking"), workItemTypeAdvancedUsageTracking),
   (gs ("performance_tuning"), workItemTypePerformanceTuning),
   (gs ("jmigrate_analysis"), workItemTypeJmigrateAnalysis)]

/-- `GetWorkItemTypeEnumValues` ranges over the map's values (iteration
order of a Go map is arbitrary; the claim it settles is a set equality). -/
def GetWorkItemTypeEnumValues : List GoString :=
  mappingWorkItemTypeEnum.map (fun p => p.2)

/-- `GetWorkItemTypeEnumStringValues`. -/
def GetWorkItemTypeEnumStringValues : List GoString :=
  [gs ("LCM"), gs ("JFR_CAPTURE"), gs ("JFR_UPLOAD"), gs ("CRYPTO_ANALYSIS"),
   gs ("CRYPTO_ANALYSIS_MERGE"), gs ("ADVANCED_USAGE_TRACKING"),
   gs ("PERFORMANCE_TUNING"), gs ("JMIGRATE_ANALYSIS")]

/-- `strings.ToLower` of the Go standard library, restricted to its ASCII
case mapping (every key of the lower-case map is plain ASCII). -/
def goToLower (s : GoString) : GoString :=
  s.map (fun c => if 65 ≤ c ∧ c ≤ 90 then c + 32 else c)

/-- `GetMappingWorkItemTypeEnum`: case-insensitive lookup; a missing key
yields the enum's zero value `""` and `ok = false`. -/
def GetMappingWorkItemTypeEnum (val : GoString) : GoString × Bool :=
  match lookupGo mappingWorkItemTypeEnumLowerCase (goToLower val) with
  | some enum => (enum, true)
  | none => ([], false)

/-! ### Fleet Application Management PatchTypeConfigCategoryDetails -/

/-- A JSON value, as much of it as the marshaller below produces. -/
inductive Json where
  | str (s : String)
  | obj (fields : List (String × Json))

/-- `PatchTypeConfigCategoryDetails`: a struct with no fields of its own. -/
structure PatchTypeConfigCategoryDetails where
deriving DecidableEq, Repr

/-- The `String()` method: `common.PointerString` renders the (empty)
struct. -/
def patchTypeConfigCategoryDetailsString (_m : PatchTypeConfigCategoryDetails) : String :=
  "{ }"

/-- The `ValidateEnumValue()` method: builds an empty message list and
reports `(false, nil)` when it stays empty. -/
def patchTypeConfigCategoryDetailsValidateEnumValue (_m : PatchTypeConfigCategoryDetails) :
    Bool × Option String :=
  let errMessage : List String := []
  if errMessage.length > 0 then (true, some (String.intercalate "\x0a" errMessage))
  else (false, none)

/-- The `MarshalJSON()` method: `json.Marshal` of the wrapper struct whose
only serialisable field is the discriminator `configCategory` set to
`"PATCH_TYPE"` (the embedded field contributes no keys); marshalling a
struct of strings cannot fail, so the error result is `none`. -/
def patchTypeConfigCategoryDetailsMarshalJSON (_m : PatchTypeConfigCategoryDetails) :
    Option Json × Option String :=
  (some (.obj [("configCategory", .str "PATCH_TYPE")]), none)

/-! ### Concrete example values used by the witness theorems -/

/-- A fully populated backend resource data value. -/
def backendDataExample : BackendResourceData :=
  { backendset_name := some (gs ("exampleBackendSet")), backup := some false,
    drain := some false, ip_address := some (gs ("10.10.10.1")),
    load_balancer_id := some (gs ("ocid1.loadbalancer.oc1..lbex")), offline := some false,
    port := some 80, weight := some 1, name := some (gs ("10.10.10.1:80")),
    id := gs ("loadBalancers/ocid1.loadbalancer.oc1..lbex/backendSets/exampleBackendSet/backends/10.10.10.1:80") }

/-- A client whose calls all succeed and whose work request moves through
ACCEPTED and IN_PROGRESS to SUCCEEDED. -/
def lbClientCreateOk : LBClient :=
  { createBackend := fun _ =>
      ({ opcWorkRequestId := some (gs ("ocid1.loadbalancerworkrequest.oc1..wr1")) }, none),
    deleteBackend := fun _ =>
      ({ opcWorkRequestId := some (gs ("ocid1.loadbalancerworkrequest.oc1..wr1")) }, none),
    getWorkRequest := fun _ =>
      ({ workRequest := { id := some (gs ("ocid1.loadbalancerworkrequest.oc1..wr1")),
                          lifecycleState := workRequestLifecycleStateAccepted } }, none),
    workRequestTrace := fun _ =>
      [workRequestLifecycleStateAccepted, workRequestLifecycleStateInProgress,
       workRequestLifecycleStateSucceeded] }

/-- A client whose `DeleteBackend` call reports an error while still
returning a work-request id, and whose other calls succeed. -/
def lbClientDeleteErr : LBClient :=
  { createBackend := fun _ => ({}, none),
    deleteBackend := fun _ =>
      ({ opcWorkRequestId := some (gs ("ocid1.loadbalancerworkrequest.oc1..wr2")) },
       some (gs ("DeleteBackend failed"))),
    getWorkRequest := fun _ =>
      ({ workRequest := { id := some (gs ("ocid1.loadbalancerworkrequest.oc1..wr2")),
                          lifecycleState := workRequestLifecycleStateSucceeded } }, none),
    workRequestTrace := fun _ => [workRequestLifecycleStateSucceeded] }

/-- Backend resource data whose current ID is a parseable composite ID. -/
def backendDataCex : BackendResourceData :=
  { backendset_name := some (gs ("bset")), ip_address := some (gs ("10.0.0.1")),
    load_balancer_id := some (gs ("ocid1.loadbalancer.oc1..lb1")), port := some 8080,
    name := some (gs ("10.0.0.1:8080")),
    id := gs ("loadBalancers/ocid1.loadbalancer.oc1..lb1/backendSets/bset/backends/10.0.0.1:8080") }

/-- Backend resource data whose current ID is a work-request OCID. -/
def backendDataWrId : BackendResourceData :=
  { id := gs ("ocid1.loadbalancerworkrequest.oc1..w9") }

/-- A recorded work request that is still in progress. -/
def workRequestPendingExample : WorkRequest :=
  { id := some (gs ("ocid1.loadbalancerworkrequest.oc1..w3")),
    lifecycleState := workRequestLifecycleStateInProgress }

/-- A CRUD state holding the in-progress work request above. -/
def backendCrudStateExample : BackendCrudState :=
  { d := backendDataExample, workRequest := some workRequestPendingExample, res := none }

/-! ### Helper lemmas -/

theorem upperHexDigit_not_slash_newline (k : Nat) :
    upperHexDigit k ≠ 47 ∧ upperHexDigit k ≠ 10 := by
  unfold upperHexDigit; split_ifs <;> omega

theorem isHexByte_upperHexDigit {k : Nat} (h : k < 16) :
    isHexByte (upperHexDigit k) = true := by
  unfold upperHexDigit
  split_ifs with hk <;> simp [isHexByte] <;> omega

theorem unhexByte_upperHexDigit {k : Nat} (h : k < 16) :
    unhexByte (upperHexDigit k) = k := by
  unfold unhexByte upperHexDigit; split_ifs <;> omega

theorem not_shouldEscapeSegment {c : Nat} (h : shouldEscapeSegment c = false) :
    c ≠ 37 ∧ c ≠ 47 ∧ c ≠ 10 ∧ c < 256 := by
  simp [shouldEscapeSegment, isUnreservedByte, isSegmentKeptByte] at h
  omega

theorem pathEscape_byte_ne {s : GoString} :
    ∀ c ∈ pathEscape s, c ≠ 47 ∧ c ≠ 10 := by
  induction s with
  | nil => intro c hc; simp [pathEscape] at hc
  | cons a t ih =>
    intro c hc
    rw [pathEscape] at hc
    rcases List.mem_append.mp hc with hh | ht
    · split_ifs at hh with hesc
      · simp at hh
        rcases hh with rfl | rfl | rfl
        · omega
        · exact upperHexDigit_not_slash_newline _
        · exact upperHexDigit_not_slash_newline _
      · simp at hh
        subst hh
        have := not_shouldEscapeSegment (by simpa using hesc)
        exact ⟨this.2.1, this.2.2.1⟩
    · exact ih c ht

theorem pathUnescape_pathEscape {s : GoString} (h : ∀ c ∈ s, c < 256) :
    pathUnescape (pathEscape s) = some s := by
  induction s with
  | nil => simp [pathEscape, pathUnescape]
  | cons a t ih =>
    have ha : a < 256 := h a (by simp)
    have ih2 := ih (fun c hc => h c (by simp [hc]))
    rw [pathEscape]
    by_cases hesc : shouldEscapeSegment a = true
    · rw [if_pos hesc]
      have h1 : isHexByte (upperHexDigit (a / 16)) = true :=
        isHexByte_upperHexDigit (by omega)
      have h2 : isHexByte (upperHexDigit (a % 16)) = true :=
        isHexByte_upperHexDigit (Nat.mod_lt _ (by omega))
      simp only [List.cons_append, List.nil_append, pathUnescape, if_pos rfl, h1, h2,
        Bool.and_self, if_pos, ih2, Option.map_some]
      rw [unhexByte_upperHexDigit (by omega), unhexByte_upperHexDigit (Nat.mod_lt _ (by omega))]
      have hdm : a / 16 * 16 + a % 16 = a := by omega
      rw [hdm]
      rfl
    · rw [if_neg hesc]
      have hne := not_shouldEscapeSegment (by simpa using hesc)
      simp only [List.cons_append, List.nil_append]
      rw [pathUnescape.eq_def]
      simp only []
      rw [if_neg hne.1, ih2]
      rfl

theorem splitOnSlash_no_slash {a : GoString} (h : ∀ c ∈ a, c ≠ 47) :
    splitOnSlash a = [a] := by
  induction a with
  | nil => rfl
  | cons c t ih =>
    have hc : c ≠ 47 := h c (by simp)
    rw [splitOnSlash, if_neg hc, ih (fun x hx => h x (by simp [hx]))]

theorem splitOnSlash_append {a rest : GoString} (h : ∀ c ∈ a, c ≠ 47) :
    splitOnSlash (a ++ 47 :: rest) = a :: splitOnSlash rest := by
  induction a with
  | nil => simp [splitOnSlash]
  | cons c t ih =>
    have hc : c ≠ 47 := h c (by simp)
    rw [List.cons_append, splitOnSlash, if_neg hc, ih (fun x hx => h x (by simp [hx]))]

theorem litMatch_self {l t : GoString} : litMatch l (l ++ t) = some t := by
  induction l with
  | nil => rfl
  | cons c l2 ih => rw [List.cons_append, litMatch, if_pos rfl, ih]

theorem matchFrom_lit {l t : GoString} {p : List PatternPiece}
    (h : matchFrom p t = true) : matchFrom (.lit l :: p) (l ++ t) = true := by
  rw [matchFrom, litMatch_self]
  exact h

theorem matchFrom_dotstar {e t : GoString} {p : List PatternPiece}
    (h10 : ∀ c ∈ e, c ≠ 10) (h : matchFrom p t = true) :
    matchFrom (.dotstar :: p) (e ++ t) = true := by
  rw [matchFrom]
  apply List.any_eq_true.mpr
  refine ⟨e.length, List.mem_range.mpr (by simp; omega), ?_⟩
  rw [List.take_left, List.drop_left, h]
  simp only [Bool.and_true]
  apply List.all_eq_true.mpr
  intro c hc
  simpa using h10 c hc

theorem pollWorkRequest_mem_target {pending target : List GoString} :
    ∀ {trace st}, pollWorkRequest pending target trace = some st → st ∈ target := by
  intro trace
  induction trace with
  | nil => intro st h; simp [pollWorkRequest] at h
  | cons a rest ih =>
    intro st h
    rw [pollWorkRequest] at h
    split_ifs at h with h1 h2
    · injection h with h3
      subst h3
      exact h1
    · exact ih h

theorem created_target_not_pending {st : GoString} (h : st ∈ backendCreatedTarget) :
    st ∉ backendCreatedPending := by
  simp only [backendCreatedTarget, List.mem_cons, List.not_mem_nil, or_false] at h
  rcases h with rfl | rfl <;> decide

theorem getOrCreate_mutex_idem (st : BackendSetMutexStore) (lb bs : GoString) :
    (getOrCreateBackendSetMutex (getOrCreateBackendSetMutex st lb bs).2 lb bs).1 =
      (getOrCreateBackendSetMutex st lb bs).1 := by
  unfold getOrCreateBackendSetMutex
  cases h : st.entries.find? (fun e => e.1 = (lb, bs)) with
  | some e => simp [h]
  | none => simp [h, List.find?_cons_of_pos]

theorem lookupGo_map_goToLower (L : List GoString) (h : (L.map goToLower).Nodup)
    (k e : GoString) :
    lookupGo (L.map (fun x => (goToLower x, x))) k = some e ↔
      (e ∈ L ∧ k = goToLower e) := by
  induction L with
  | nil => simp [lookupGo]
  | cons a t ih =>
    simp only [List.map_cons, List.nodup_cons] at h
    obtain ⟨ha, ht⟩ := h
    simp only [List.map_cons, lookupGo]
    by_cases hk : k = goToLower a
    · rw [if_pos hk]
      constructor
      · intro h2
        injection h2 with h2
        subst h2
        exact ⟨by simp, hk⟩
      · rintro ⟨hmem, hke⟩
        rcases List.mem_cons.mp hmem with rfl | hmem2
        · rfl
        · exfalso
          apply ha
          have h4 : goToLower e ∈ List.map goToLower t := List.mem_map_of_mem goToLower hmem2
          rw [← hke, hk] at h4
          exact h4
    · rw [if_neg hk, ih ht]
      constructor
      · rintro ⟨hm, hke⟩
        exact ⟨List.mem_cons_of_mem _ hm, hke⟩
      · rintro ⟨hm, hke⟩
        rcases List.mem_cons.mp hm with rfl | hm2
        · exact absurd hke hk
        · exact ⟨hm2, hke⟩

/-! ### The claims -/

/-- C1: for every resource-data state, `BackendResourceCrud.Create` builds its
`CreateBackendRequest` by copying exactly the present key/value fields into the
typed SDK request: for each of `backendset_name`, `backup`, `drain`,
`ip_address`, `offline`, `load_balancer_id`, `port` and `weight`, a present
value is copied (as a pointer) into the corresponding request field and an
absent one leaves that field nil. -/
theorem backendCreate_copies_exactly_the_present_fields (d : BackendResourceData) :
    (buildCreateBackendRequest d).backendSetName = d.backendset_name ∧
    (buildCreateBackendRequest d).backup = d.backup ∧
    (buildCreateBackendRequest d).drain = d.drain ∧
    (buildCreateBackendRequest d).ipAddress = d.ip_address ∧
    (buildCreateBackendRequest d).loadBalancerId = d.load_balancer_id ∧
    (buildCreateBackendRequest d).offline = d.offline ∧
    (buildCreateBackendRequest d).port = d.port ∧
    (buildCreateBackendRequest d).weight = d.weight := by
  obtain ⟨bsn, bu, dr, ip, lb, off, po, we, nm, st, id⟩ := d
  cases bsn <;> cases bu <;> cases dr <;> cases ip <;> cases lb <;> cases off <;>
    cases po <;> cases we <;> simp [buildCreateBackendRequest]

/-- C2: the create operation's pending states are exactly IN_PROGRESS and
ACCEPTED and its terminal target states exactly SUCCEEDED and FAILED, and
`Create` returns nil only after the work-request wait completed without
error, having polled the work request to a state that is terminal and not
pending. -/
theorem backendCreate_waits_for_terminal_work_request_state :
    (∀ st, st ∈ backendCreatedPending ↔
      (st = workRequestLifecycleStateInProgress ∨ st = workRequestLifecycleStateAccepted)) ∧
    (∀ st, st ∈ backendCreatedTarget ↔
      (st = workRequestLifecycleStateSucceeded ∨ st = workRequestLifecycleStateFailed)) ∧
    (∀ (c : LBClient) (d : BackendResourceData),
      (backendCreate c d).1 = none →
      ∃ wr st, (backendCreate c d).2 = some wr ∧
        loadBalancerWaitForWorkRequest backendCreatedPending backendCreatedTarget
          (c.workRequestTrace wr) = none ∧
        pollWorkRequest backendCreatedPending backendCreatedTarget
          (c.workRequestTrace wr) = some st ∧
        st ∈ backendCreatedTarget ∧ st ∉ backendCreatedPending) := by
  refine ⟨fun st => by simp [backendCreatedPending], fun st => by simp [backendCreatedTarget], ?_⟩
  intro c d h
  obtain ⟨fc, fd, fg, ft⟩ := c
  simp only [backendCreate] at h ⊢
  split at h
  · exact absurd h (by simp)
  · split at h
    · exact absurd h (by simp)
    · split at h
      · exact absurd h (by simp)
      · rename_i hw
        refine ⟨(fg { workRequestId := (fc (buildCreateBackendRequest d)).1.opcWorkRequestId }).1.workRequest, ?_⟩
        have hww := hw
        unfold loadBalancerWaitForWorkRequest at hww
        cases hp : pollWorkRequest backendCreatedPending backendCreatedTarget
            (ft (fg { workRequestId := (fc (buildCreateBackendRequest d)).1.opcWorkRequestId }).1.workRequest) with
        | none => rw [hp] at hww; simp at hww
        | some st =>
          exact ⟨st, rfl, hw, rfl, pollWorkRequest_mem_target hp,
            created_target_not_pending (pollWorkRequest_mem_target hp)⟩

/-- C2 witness: at a concrete client whose trace runs ACCEPTED, IN_PROGRESS,
SUCCEEDED, a successful create recorded a work request polled to a terminal
non-pending state. -/
theorem backendCreate_waits_for_terminal_work_request_state_witness :
    ∃ wr st, (backendCreate lbClientCreateOk backendDataExample).2 = some wr ∧
      loadBalancerWaitForWorkRequest backendCreatedPending backendCreatedTarget
        (lbClientCreateOk.workRequestTrace wr) = none ∧
      pollWorkRequest backendCreatedPending backendCreatedTarget
        (lbClientCreateOk.workRequestTrace wr) = some st ∧
      st ∈ backendCreatedTarget ∧ st ∉ backendCreatedPending :=
  backendCreate_waits_for_terminal_work_request_state.2.2 lbClientCreateOk
    backendDataExample (by decide)

/-- C3 counterexample: at a client whose `DeleteBackend` call returns an
error (alongside a work-request id) while `GetWorkRequest` and the wait
succeed, `Delete` nevertheless returns nil, although the resource ID does
not contain the work-request OCID marker — so the error of `DeleteBackend`
is not propagated to the caller, contrary to the claim. -/
theorem backendDelete_drops_deleteBackend_error_cex :
    (backendDelete lbClientDeleteErr backendDataCex).1 = none ∧
    (lbClientDeleteErr.deleteBackend (buildDeleteBackendRequest backendDataCex)).2 =
      some (gs ("DeleteBackend failed")) ∧
    goContains backendDataCex.id lbWorkRequestOcidMarker = false := by
  refine ⟨by decide, by decide, by decide⟩

/-- C3 (amended): `Delete` returns nil immediately (no API effect) when the
current ID contains "ocid1.loadbalancerworkrequest"; otherwise it calls
`DeleteBackend`, polls the resulting work request to completion before
returning, and propagates the errors of `GetWorkRequest` and of the wait —
but the error returned by `DeleteBackend` itself is discarded, so `Delete`
returns nil exactly when `GetWorkRequest` and the wait succeed, whether or
not `DeleteBackend` reported an error. -/
theorem backendDelete_amended_error_propagation (c : LBClient) (d : BackendResourceData) :
    (goContains d.id lbWorkRequestOcidMarker = true → backendDelete c d = (none, none, d)) ∧
    (goContains d.id lbWorkRequestOcidMarker = false →
      ((backendDelete c d).1 = none ↔
        ((c.getWorkRequest { workRequestId :=
            (c.deleteBackend (buildDeleteBackendRequest d)).1.opcWorkRequestId }).2 = none ∧
         loadBalancerWaitForWorkRequest backendDeletedPending backendDeletedTarget
           (c.workRequestTrace (c.getWorkRequest { workRequestId :=
             (c.deleteBackend (buildDeleteBackendRequest d)).1.opcWorkRequestId }).1.workRequest)
           = none))) := by
  obtain ⟨fc, fd, fg, ft⟩ := c
  constructor
  · intro h
    simp [backendDelete, h]
  · intro h
    simp only [backendDelete, h, Bool.false_eq_true, if_false]
    rcases hgw : fg { workRequestId := (fd (buildDeleteBackendRequest d)).1.opcWorkRequestId }
      with ⟨wresp, err2⟩
    cases err2 with
    | some e => simp
    | none =>
      cases hw : loadBalancerWaitForWorkRequest backendDeletedPending backendDeletedTarget
          (ft wresp.workRequest) with
      | some e => simp
      | none => simp

/-- C3 witness: on a resource whose ID is a work-request OCID, `Delete`
returns nil at once and leaves the state untouched. -/
theorem backendDelete_amended_error_propagation_witness :
    backendDelete lbClientDeleteErr backendDataWrId = (none, none, backendDataWrId) :=
  (backendDelete_amended_error_propagation lbClientDeleteErr backendDataWrId).1 (by decide)

/-- C4: for all byte strings, parsing the composite ID built by
`getBackendCompositeId` round-trips to the original backend name, backend
set name and load balancer ID with no error, because every component is
path-escaped before the slash-joining. -/
theorem backendCompositeId_roundtrip (backendName backendSetName loadBalancerId : GoString)
    (hbn : ∀ c ∈ backendName, c < 256) (hbs : ∀ c ∈ backendSetName, c < 256)
    (hlb : ∀ c ∈ loadBalancerId, c < 256) :
    parseBackendCompositeId (getBackendCompositeId backendName backendSetName loadBalancerId) =
      some (backendName, backendSetName, loadBalancerId) := by
  have hbn47 : ∀ c ∈ pathEscape backendName, c ≠ 47 := fun c hc => (pathEscape_byte_ne c hc).1
  have hbs47 : ∀ c ∈ pathEscape backendSetName, c ≠ 47 := fun c hc => (pathEscape_byte_ne c hc).1
  have hlb47 : ∀ c ∈ pathEscape loadBalancerId, c ≠ 47 := fun c hc => (pathEscape_byte_ne c hc).1
  have hbn10 : ∀ c ∈ pathEscape backendName, c ≠ 10 := fun c hc => (pathEscape_byte_ne c hc).2
  have hbs10 : ∀ c ∈ pathEscape backendSetName, c ≠ 10 := fun c hc => (pathEscape_byte_ne c hc).2
  have hlb10 : ∀ c ∈ pathEscape loadBalancerId, c ≠ 10 := fun c hc => (pathEscape_byte_ne c hc).2
  have e1 : gs ("loadBalancers/") = gs ("loadBalancers") ++ [47] := by decide
  have e2 : gs ("/backendSets/") = 47 :: (gs ("backendSets") ++ [47]) := by decide
  have e3 : gs ("/backends/") = 47 :: (gs ("backends") ++ [47]) := by decide
  have hcomp : getBackendCompositeId backendName backendSetName loadBalancerId =
      gs ("loadBalancers") ++ 47 :: (pathEscape loadBalancerId ++ 47 ::
        (gs ("backendSets") ++ 47 :: (pathEscape backendSetName ++ 47 ::
          (gs ("backends") ++ 47 :: pathEscape backendName)))) := by
    simp only [getBackendCompositeId]
    rw [e1, e2, e3]
    simp [List.append_assoc]
  have hsplit : splitOnSlash (getBackendCompositeId backendName backendSetName loadBalancerId) =
      [gs ("loadBalancers"), pathEscape loadBalancerId, gs ("backendSets"),
       pathEscape backendSetName, gs ("backends"), pathEscape backendName] := by
    rw [hcomp]
    rw [splitOnSlash_append (by decide)]
    rw [splitOnSlash_append hlb47]
    rw [splitOnSlash_append (by decide)]
    rw [splitOnSlash_append hbs47]
    rw [splitOnSlash_append (by decide)]
    rw [splitOnSlash_no_slash hbn47]
  have hshape : getBackendCompositeId backendName backendSetName loadBalancerId =
      gs ("loadBalancers/") ++ (pathEscape loadBalancerId ++ (gs ("/backendSets/") ++
        (pathEscape backendSetName ++ (gs ("/backends/") ++ pathEscape backendName)))) := by
    simp only [getBackendCompositeId]
    simp [List.append_assoc]
  have hmatch : regexpMatchLBBackend
      (getBackendCompositeId backendName backendSetName loadBalancerId) = true := by
    unfold regexpMatchLBBackend
    apply List.any_eq_true.mpr
    refine ⟨0, List.mem_range.mpr (by omega), ?_⟩
    rw [List.drop_zero, hshape]
    unfold lbBackendPatternPieces
    apply matchFrom_lit
    apply matchFrom_dotstar hlb10
    apply matchFrom_lit
    apply matchFrom_dotstar hbs10
    apply matchFrom_lit
    rw [← List.append_nil (pathEscape backendName)]
    exact matchFrom_dotstar hbn10 rfl
  simp only [parseBackendCompositeId]
  rw [hsplit, hmatch]
  simp only [List.length_cons, List.length_nil, List.getD]
  norm_num
  rw [pathUnescape_pathEscape hbn, pathUnescape_pathEscape hbs, pathUnescape_pathEscape hlb]
  exact ⟨rfl, rfl, rfl⟩

/-- C4 witness: the round trip at concrete components, one of which
contains both a slash and a colon. -/
theorem backendCompositeId_roundtrip_witness :
    parseBackendCompositeId (getBackendCompositeId (gs ("10.0.0.1:8080")) (gs ("b/set"))
      (gs ("ocid1.loadbalancer.oc1..lb1"))) =
    some (gs ("10.0.0.1:8080"), gs ("b/set"), gs ("ocid1.loadbalancer.oc1..lb1")) :=
  backendCompositeId_roundtrip (gs ("10.0.0.1:8080")) (gs ("b/set"))
    (gs ("ocid1.loadbalancer.oc1..lb1")) (by decide) (by decide) (by decide)

/-- C5: after the package-init registration runs, the global resource table
maps "oci_core_drg_route_distribution" to the resource returned by
`CoreDrgRouteDistributionResource`, whose Create, Read, Update and Delete
entries are the four per-resource CRUD adapter functions. -/
theorem drgRouteDistribution_registered_in_global_table :
    (coreDrgRouteDistributionInit []).lookup "oci_core_drg_route_distribution" =
      some CoreDrgRouteDistributionResource ∧
    CoreDrgRouteDistributionResource.create = CrudHandler.createCoreDrgRouteDistribution ∧
    CoreDrgRouteDistributionResource.read = CrudHandler.readCoreDrgRouteDistribution ∧
    CoreDrgRouteDistributionResource.update = CrudHandler.updateCoreDrgRouteDistribution ∧
    CoreDrgRouteDistributionResource.delete = CrudHandler.deleteCoreDrgRouteDistribution := by
  exact ⟨rfl, rfl, rfl, rfl, rfl⟩

/-- C6: the generated `WorkItemTypeEnum` accessors are mutually consistent:
the values returned by `GetWorkItemTypeEnumValues` are as a set exactly the
eight declared constants, `GetWorkItemTypeEnumStringValues` returns exactly
their string forms, and for every string, `GetMappingWorkItemTypeEnum`
returns `(e, true)` iff lowercasing the string yields the lowercase form of
the constant `e`, and `ok = false` exactly otherwise. -/
theorem workItemTypeEnum_accessors_consistent :
    (∀ e, e ∈ GetWorkItemTypeEnumValues ↔ e ∈ workItemTypeEnumConstants) ∧
    GetWorkItemTypeEnumStringValues = workItemTypeEnumConstants ∧
    (∀ val e, GetMappingWorkItemTypeEnum val = (e, true) ↔
      (e ∈ workItemTypeEnumConstants ∧ goToLower val = goToLower e)) ∧
    (∀ val, (GetMappingWorkItemTypeEnum val).2 = false ↔
      ∀ e ∈ workItemTypeEnumConstants, goToLower val ≠ goToLower e) := by
  have hmap : mappingWorkItemTypeEnumLowerCase =
      workItemTypeEnumConstants.map (fun x => (goToLower x, x)) := by decide
  have hnd : (workItemTypeEnumConstants.map goToLower).Nodup := by decide
  have hkey : ∀ val e, lookupGo mappingWorkItemTypeEnumLowerCase (goToLower val) = some e ↔
      (e ∈ workItemTypeEnumConstants ∧ goToLower val = goToLower e) := by
    intro val e
    rw [hmap]
    exact lookupGo_map_goToLower _ hnd _ _
  have hv : GetWorkItemTypeEnumValues = workItemTypeEnumConstants := by decide
  refine ⟨fun e => by rw [hv], by decide, ?_, ?_⟩
  · intro val e
    unfold GetMappingWorkItemTypeEnum
    cases hl : lookupGo mappingWorkItemTypeEnumLowerCase (goToLower val) with
    | some x =>
      simp only [Prod.mk.injEq, and_true]
      constructor
      · rintro rfl
        exact (hkey val x).mp hl
      · intro h2
        have h3 := (hkey val e).mpr h2
        rw [hl] at h3
        simp only [Option.some.injEq] at h3
        exact h3
    | none =>
      constructor
      · intro h2
        have h3 := congrArg Prod.snd h2
        simp at h3
      · intro h2
        have h3 := (hkey val e).mpr h2
        rw [hl] at h3
        exact absurd h3 (by simp)
  · intro val
    unfold GetMappingWorkItemTypeEnum
    cases hl : lookupGo mappingWorkItemTypeEnumLowerCase (goToLower val) with
    | some x =>
      constructor
      · intro hfalse
        exact absurd hfalse (by simp)
      · intro h2
        exfalso
        obtain ⟨hm, hvv⟩ := (hkey val x).mp hl
        exact h2 x hm hvv
    | none =>
      constructor
      · intro _ e hm hvv
        have h3 := (hkey val e).mpr ⟨hm, hvv⟩
        rw [hl] at h3
        exact absurd h3 (by simp)
      · intro _
        rfl

/-- C6 witness: "Lcm" maps (case-insensitively) to the LCM constant with
`ok = true`, while "zz" yields `ok = false`. -/
theorem workItemTypeEnum_accessors_consistent_witness :
    GetMappingWorkItemTypeEnum (gs ("Lcm")) = (workItemTypeLcm, true) ∧
    (GetMappingWorkItemTypeEnum (gs ("zz"))).2 = false :=
  ⟨(workItemTypeEnum_accessors_consistent.2.2.1 (gs ("Lcm")) workItemTypeLcm).mpr (by decide),
   (workItemTypeEnum_accessors_consistent.2.2.2 (gs ("zz"))).mpr (by decide)⟩

/-- C7: `PatchTypeConfigCategoryDetails` provides `String`, `MarshalJSON`
and `ValidateEnumValue`; for every value, `MarshalJSON` succeeds with a
JSON object whose discriminator field "configCategory" is "PATCH_TYPE",
and `ValidateEnumValue` returns `(false, nil)`. -/
theorem patchTypeConfigCategoryDetails_methods (m : PatchTypeConfigCategoryDetails) :
    (∃ fields, patchTypeConfigCategoryDetailsMarshalJSON m = (some (.obj fields), none) ∧
      fields.lookup "configCategory" = some (.str "PATCH_TYPE")) ∧
    patchTypeConfigCategoryDetailsValidateEnumValue m = (false, none) := by
  exact ⟨⟨[("configCategory", Json.str "PATCH_TYPE")], rfl, rfl⟩, rfl⟩

/-- C8: `GetMutex` yields one mutex determined by the
(load_balancer_id, backendset_name) pair alone — a second CRUD instance
whose resource data carries the same pair obtains the same mutex from the
store left by the first. -/
theorem backendGetMutex_determined_by_pair (st : BackendSetMutexStore)
    (d1 d2 : BackendResourceData)
    (hlb : d1.load_balancer_id = d2.load_balancer_id)
    (hbs : d1.backendset_name = d2.backendset_name) :
    (backendGetMutex ((backendGetMutex st d1).2) d2).1 = (backendGetMutex st d1).1 := by
  unfold backendGetMutex
  rw [← hlb, ← hbs]
  exact getOrCreate_mutex_idem st _ _

/-- C8 witness: two data values sharing the pair but differing elsewhere
obtain the same mutex from the empty store. -/
theorem backendGetMutex_determined_by_pair_witness :
    (backendGetMutex ((backendGetMutex {} backendDataExample).2)
      { backendDataExample with backup := some true }).1 =
    (backendGetMutex {} backendDataExample).1 :=
  backendGetMutex_determined_by_pair {} backendDataExample
    { backendDataExample with backup := some true } rfl rfl

set_option maxHeartbeats 1600000 in
/-- C9: `SetData` changes nothing when the fetched response is nil; when it
is present, only the fields with non-nil response pointers are written
(each to the pointed value), plus name, backendset_name and
load_balancer_id when the current ID parses as a composite ID; every other
resource-data field — in particular state and the ID itself — is left
unchanged. -/
theorem backendSetData_frame (s : BackendCrudState) :
    (s.res = none → backendSetData s = s.d) ∧
    (∀ r, s.res = some r →
      (backendSetData s).state = s.d.state ∧
      (backendSetData s).id = s.d.id ∧
      (r.backup = none → (backendSetData s).backup = s.d.backup) ∧
      (∀ v, r.backup = some v → (backendSetData s).backup = some v) ∧
      (r.drain = none → (backendSetData s).drain = s.d.drain) ∧
      (∀ v, r.drain = some v → (backendSetData s).drain = some v) ∧
      (r.ipAddress = none → (backendSetData s).ip_address = s.d.ip_address) ∧
      (∀ v, r.ipAddress = some v → (backendSetData s).ip_address = some v) ∧
      (r.offline = none → (backendSetData s).offline = s.d.offline) ∧
      (∀ v, r.offline = some v → (backendSetData s).offline = some v) ∧
      (r.port = none → (backendSetData s).port = s.d.port) ∧
      (∀ v, r.port = some v → (backendSetData s).port = some v) ∧
      (r.weight = none → (backendSetData s).weight = s.d.weight) ∧
      (∀ v, r.weight = some v → (backendSetData s).weight = some v) ∧
      (parseBackendCompositeId s.d.id = none →
        ((backendSetData s).backendset_name = s.d.backendset_name ∧
         (backendSetData s).load_balancer_id = s.d.load_balancer_id ∧
         (r.name = none → (backendSetData s).name = s.d.name))) ∧
      (∀ bn bs lb, parseBackendCompositeId s.d.id = some (bn, bs, lb) →
        ((backendSetData s).backendset_name = some bs ∧
         (backendSetData s).load_balancer_id = some lb ∧
         (r.name = none → (backendSetData s).name = some bn)))) := by
  obtain ⟨d, wrq, res⟩ := s
  constructor
  · intro h
    subst h
    rfl
  · intro r hres
    subst hres
    obtain ⟨nm, ip, po, bu, dr, off, we⟩ := r
    cases hparse : parseBackendCompositeId d.id with
    | none =>
      cases nm <;> cases ip <;> cases po <;> cases bu <;> cases dr <;> cases off <;> cases we <;>
        simp [backendSetData, hparse]
    | some v =>
      obtain ⟨bn, bs, lb⟩ := v
      cases nm <;> cases ip <;> cases po <;> cases bu <;> cases dr <;> cases off <;> cases we <;>
        simp [backendSetData, hparse]

/-- C9 witness: with a nil response, `SetData` leaves concrete resource
data untouched. -/
theorem backendSetData_frame_witness :
    backendSetData { d := backendDataExample, workRequest := none, res := none } =
      backendDataExample :=
  (backendSetData_frame { d := backendDataExample, workRequest := none, res := none }).1 rfl

/-- C10: `ID` is total over its three cases: empty string when no work
request is recorded; the work request's ID when the recorded request's
state is not SUCCEEDED; and the composite ID built from ip_address:port,
backendset_name and load_balancer_id when its state is SUCCEEDED. -/
theorem backendID_total_three_cases (s : BackendCrudState) :
    (s.workRequest = none → backendID s = gs ("")) ∧
    (∀ wr, s.workRequest = some wr →
      ((wr.lifecycleState = workRequestLifecycleStateSucceeded →
        backendID s = getBackendCompositeId (buildID s.d) (s.d.backendset_name.getD [])
          (s.d.load_balancer_id.getD [])) ∧
       (wr.lifecycleState ≠ workRequestLifecycleStateSucceeded →
        ∀ i, wr.id = some i → backendID s = i))) := by
  constructor
  · intro h
    simp [backendID, h, gs]
  · intro wr hwr
    constructor
    · intro hs
      simp [backendID, hwr, hs]
    · intro hs i hi
      simp [backendID, hwr, hs, hi]

/-- C10 witness: with a recorded work request still IN_PROGRESS, `ID`
returns the work request's OCID. -/
theorem backendID_total_three_cases_witness :
    backendID backendCrudStateExample = gs ("ocid1.loadbalancerworkrequest.oc1..w3") :=
  ((backendID_total_three_cases backendCrudStateExample).2 workRequestPendingExample rfl).2
    (by decide) (gs ("ocid1.loadbalancerworkrequest.oc1..w3")) rfl

end OciProvider
